import Mathlib

/-!
Verification of `scripts/fetch_weather.py` (havana-weather).

The script is a single-run pipeline: fetch JSON from Open-Meteo, build a
markdown log entry, append it to `weather.md` unless its dedup key is already
present, and regenerate `art/weather.svg`.

Shallow embedding conventions:
* Python strings are modelled as `List Char` (`PyStr`); slicing becomes
  `take`/`drop`, `in` becomes list membership / the infix relation.
* JSON numeric values (temperature, wind speed, daily aggregates) are modelled
  by their Python `str()` rendering, since the script only ever interpolates
  them into f-strings.  A missing key and a JSON `null` value are both
  modelled as `none` (the spec's data model treats "absent (null)" as one
  condition).
* The parsed response is `Option WeatherData`: `none` stands for the "no
  data" signal (a `None` return of `try_fetch_json`, or a falsy response,
  which `main` treats identically via `if not data`).
* The clock fallback `datetime.now(timezone.utc).isoformat()` is passed in
  explicitly as the `now_fallback` argument.
* The on-disk log is a `FileState`: whether the file exists, its byte
  contents, and a flag modelling a transient read failure (the `except`
  branch of `already_exists`).  `main` additionally returns the list of file
  operations the run performed and the SVG text written, if any.
* Python code that can raise inside the modelled fragment (the unguarded
  `[0]` subscripts of `build_svg`) returns `Except Unit`; an uncaught
  exception makes the process exit with status 1, which `main` models.
-/

set_option maxRecDepth 10000

/-- Python strings, modelled as lists of characters. -/
abbrev PyStr := List Char

/-- Embeds `weather_code_to_icon_and_text` from `scripts/fetch_weather.py`
(lines 52-74): map an optional Open-Meteo weathercode to an (icon, label)
pair of strings. -/
def weather_code_to_icon_and_text : Option Int → PyStr × PyStr
  | none => ("❓".toList, "Unknown".toList)
  | some code =>
    if code = 0 then ("☀️".toList, "Clear sky".toList)
    else if 1 ≤ code ∧ code ≤ 3 then ("🌤️".toList, "Partly cloudy".toList)
    else if 45 ≤ code ∧ code ≤ 48 then ("🌫️".toList, "Fog".toList)
    else if (51 ≤ code ∧ code ≤ 67) ∨ (80 ≤ code ∧ code ≤ 82) then ("🌧️".toList, "Rain".toList)
    else if (71 ≤ code ∧ code ≤ 77) ∨ (85 ≤ code ∧ code ≤ 86) then ("❄️".toList, "Snow".toList)
    else if 95 ≤ code ∧ code ≤ 99 then ("⛈️".toList, "Thunderstorm".toList)
    else ("🌥️".toList, "Cloudy".toList)

/-- The `current_weather` sub-object of the parsed response.  Each field is
`none` when the key is missing (or bound to JSON null). -/
structure CurrentWeather where
  time : Option PyStr
  temperature : Option PyStr
  windspeed : Option PyStr
  weathercode : Option Int
deriving DecidableEq

/-- The `daily` sub-object: each key, when present, is bound to an array of
nullable numbers (rendered as strings). -/
structure Daily where
  temperature_2m_max : Option (List (Option PyStr))
  temperature_2m_min : Option (List (Option PyStr))
  precipitation_sum : Option (List (Option PyStr))
deriving DecidableEq

/-- A truthy parsed response: its optional `current_weather` and `daily`
sub-objects.  `data.get("current_weather", {})` yields `emptyCW` when the key
is absent, and likewise for `daily`. -/
structure WeatherData where
  current_weather : Option CurrentWeather
  daily : Option Daily
deriving DecidableEq

/-- The default `{}` produced by `data.get("current_weather", {})`. -/
def emptyCW : CurrentWeather := ⟨none, none, none, none⟩

/-- The default `{}` produced by `data.get("daily", {})`. -/
def emptyDaily : Daily := ⟨none, none, none⟩

/-- Embeds `daily.get(k, [None])[0]`: absent key gives `[None][0] = None`;
a present empty array raises `IndexError` (`Except.error`); otherwise the
first element (possibly null) is returned. -/
def getDaily0 : Option (List (Option PyStr)) → Except Unit (Option PyStr)
  | none => Except.ok none
  | some [] => Except.error ()
  | some (x :: _) => Except.ok x

/-- Embeds the `try:` block of `build_md_entry` (lines 95-100): the three
assignments run in order; the first `IndexError` aborts the block, leaving the
later variables at their initial `None`. -/
def dailyTriple (daily : Daily) : Option PyStr × Option PyStr × Option PyStr :=
  match getDaily0 daily.temperature_2m_max with
  | Except.error _ => (none, none, none)
  | Except.ok tmax =>
    match getDaily0 daily.temperature_2m_min with
    | Except.error _ => (tmax, none, none)
    | Except.ok tmin =>
      match getDaily0 daily.precipitation_sum with
      | Except.error _ => (tmax, tmin, none)
      | Except.ok precip => (tmax, tmin, precip)

/-- Embeds `cw.get("time") or datetime.now(timezone.utc).isoformat()`:
a missing or empty (falsy) time string falls back to the current UTC instant,
supplied explicitly as `now_fallback`. -/
def mdNowTime (cw : CurrentWeather) (now_fallback : PyStr) : PyStr :=
  match cw.time with
  | some t => if t.isEmpty then now_fallback else t
  | none => now_fallback

/-- Embeds the slicing in `build_md_entry` (lines 85-86):
`date_part = now_time[:10]` and
`time_part = now_time[11:] if "T" in now_time else now_time[11:19]`. -/
def mdTimeParts (cw : CurrentWeather) (now_fallback : PyStr) : PyStr × PyStr :=
  let now_time := mdNowTime cw now_fallback
  (now_time.take 10,
   if now_time.contains 'T' then now_time.drop 11 else (now_time.drop 11).take 8)

/-- Embeds the `lines` list built by `build_md_entry` (lines 104-118): header
and icon line always, then one line per present optional field, then the fixed
attribution footer. -/
def build_md_lines (d : WeatherData) (now_fallback : PyStr) : List PyStr :=
  let cw := d.current_weather.getD emptyCW
  let t3 := dailyTriple (d.daily.getD emptyDaily)
  ["**".toList ++ (mdTimeParts cw now_fallback).1 ++ " ".toList ++
     (mdTimeParts cw now_fallback).2 ++ " — Alamar, Havana (Cuba)**".toList,
   (weather_code_to_icon_and_text cw.weathercode).1 ++ " ".toList ++
     (weather_code_to_icon_and_text cw.weathercode).2]
  ++ (match cw.temperature with
      | some t => ["Now: ".toList ++ t ++ " °C (measured at ".toList ++
                    (mdTimeParts cw now_fallback).2 ++ ")".toList]
      | none => [])
  ++ (match t3.1, t3.2.1 with
      | some a, some b => ["Max/Min today: ".toList ++ a ++ " °C / ".toList ++ b ++ " °C".toList]
      | _, _ => [])
  ++ (match t3.2.2 with
      | some p => ["Precipitation (today): ".toList ++ p ++ " mm".toList]
      | none => [])
  ++ (match cw.windspeed with
      | some w => ["Wind speed: ".toList ++ w ++ " km/h".toList]
      | none => [])
  ++ ["_Source: Open-Meteo API_".toList]

/-- The dedup key `key = f"{date_part}T{time_part}"` of `build_md_entry`
(line 122). -/
def mdKey (d : WeatherData) (now_fallback : PyStr) : PyStr :=
  (mdTimeParts (d.current_weather.getD emptyCW) now_fallback).1 ++
    'T' :: (mdTimeParts (d.current_weather.getD emptyCW) now_fallback).2

/-- The entry text `entry = "\n\n".join(lines) + "\n\n---\n\n"` of
`build_md_entry` (line 120). -/
def mdEntry (d : WeatherData) (now_fallback : PyStr) : PyStr :=
  List.intercalate "\n\n".toList (build_md_lines d now_fallback) ++
    "\n\n---\n\n".toList

/-- Embeds `build_md_entry` (lines 77-123).  Falsy data gives `(None, None)`,
modelled as `none`; otherwise the function returns the dedup key and the
entry: the lines joined by blank lines, terminated by the fixed delimiter. -/
def build_md_entry : Option WeatherData → PyStr → Option (PyStr × PyStr)
  | none, _ => none
  | some d, now_fallback => some (mdKey d now_fallback, mdEntry d now_fallback)

/-- State of the log file `weather.md`: whether it exists, its contents, and
whether reading it raises (the `except` branch of `already_exists`). -/
structure FileState where
  present : Bool
  contents : PyStr
  readFails : Bool
deriving DecidableEq

/-- The observable bytes of the log: `[]` when the file does not exist. -/
def FileState.eff (st : FileState) : PyStr :=
  if st.present then st.contents else []

/-- Embeds `already_exists` (lines 126-133): a missing file has no keys, a
failing read is treated as "key not found", otherwise `key in txt` is the
substring test. -/
def already_exists (key : PyStr) (st : FileState) : Bool :=
  if !st.present then false
  else if st.readFails then false
  else decide (key <:+: st.contents)

/-- Embeds `append_md` (lines 136-140): open for appending (creating the file
if needed) and write the entry at the end. -/
def append_md (entry : PyStr) (st : FileState) : FileState :=
  { st with present := true, contents := st.eff ++ entry }

/-- The Log Writer step of `main` (lines 205-208): skip when the key is
already present, otherwise append.  The boolean records whether a write was
performed. -/
def logWriterStep (key entry : PyStr) (st : FileState) : FileState × Bool :=
  if already_exists key st then (st, false) else (append_md entry st, true)

/-- Embeds `time_str = time_full.replace("T", " ")[:19]` of `build_svg`,
with `time_full = cw.get("time", "")`. -/
def svgTimeStr (cw : CurrentWeather) : PyStr :=
  ((cw.time.getD []).map (fun c => if c = 'T' then ' ' else c)).take 19

/-- Embeds `title = f"Alamar, Havana — {time_str}"`. -/
def svgTitle (cw : CurrentWeather) : PyStr :=
  "Alamar, Havana — ".toList ++ svgTimeStr cw

/-- Embeds `temp_text = f"{temp_now} °C"` with
`temp_now = cw.get("temperature", "--")`. -/
def svgTempText (cw : CurrentWeather) : PyStr :=
  (match cw.temperature with
   | none => "--".toList
   | some t => t) ++ " °C".toList

/-- Embeds `cw.get("windspeed", "--")` interpolated into the meta line. -/
def svgWindDisp (cw : CurrentWeather) : PyStr :=
  match cw.windspeed with
  | none => "--".toList
  | some w => w

/-- Python `str()` of a nullable value: `None` renders as the string
`"None"`. -/
def pyStrOpt : Option PyStr → PyStr
  | none => "None".toList
  | some s => s

/-- Embeds `extra = f"Max {tmax} °C / Min {tmin} °C  •  Precip {precip} mm"`. -/
def svgExtra (tmax tmin precip : Option PyStr) : PyStr :=
  "Max ".toList ++ pyStrOpt tmax ++ " °C / Min ".toList ++ pyStrOpt tmin ++
    " °C  •  Precip ".toList ++ pyStrOpt precip ++ " mm".toList

/-- SVG template text before `{title}` (constants substituted: `w = 600`,
`h = 280`, `w-40 = 560`, `h-40 = 240`). -/
def svgP1 : PyStr :=
  ("<?xml version=\"1.0\" encoding=\"UTF-8\"?>\n<svg width=\"600\" height=\"280\" viewBox=\"0 0 600 280\" xmlns=\"http://www.w3.org/2000/svg\" role=\"img\" aria-label=\"Weather summary\">\n  <style>\n    .bg \x7b fill: #0b1220; \x7d\n    .card \x7b fill: #0f1724; stroke: #1f2937; stroke-width:1; rx:14; \x7d\n    .title \x7b font: 20px \x27Segoe UI\x27, Roboto, Arial; fill: #e6eef8; \x7d\n    .temp \x7b font: 56px \x27Segoe UI\x27, Roboto, Arial; fill: #ffffff; font-weight:700; \x7d\n    .emoji \x7b font-size:56px; \x7d\n    .meta \x7b font: 14px \x27Segoe UI\x27, Roboto, Arial; fill: #cbd5e1; \x7d\n    .foot \x7b font: 12px \x27Segoe UI\x27, Roboto, Arial; fill: #94a3b8; \x7d\n  </style>\n  <rect class=\"bg\" width=\"100%\" height=\"100%\" rx=\"0\"/>\n  <g transform=\"translate(20,20)\">\n    <rect class=\"card\" x=\"0\" y=\"0\" width=\"560\" height=\"240\" rx=\"12\"/>\n    <text class=\"title\" x=\"24\" y=\"38\">").toList

/-- SVG template text between `{title}` and `{emoji}` (`w-40-160 = 400`). -/
def svgP2 : PyStr :=
  ("</text>\n    <text class=\"emoji\" x=\"400\" y=\"110\">").toList

/-- SVG template text between `{emoji}` and `{temp_text}`. -/
def svgP3 : PyStr :=
  ("</text>\n    <text class=\"temp\" x=\"110\" y=\"110\">").toList

/-- SVG template text between `{temp_text}` and `{text}`. -/
def svgP4 : PyStr :=
  ("</text>\n    <text class=\"meta\" x=\"24\" y=\"160\">").toList

/-- SVG template text between `{text}` and the wind display. -/
def svgP5 : PyStr := " — Wind: ".toList

/-- SVG template text between the wind display and `{extra}`. -/
def svgP6 : PyStr :=
  (" km/h</text>\n    <text class=\"meta\" x=\"24\" y=\"185\">").toList

/-- SVG template text after `{extra}` (`h-48 = 232`). -/
def svgP7 : PyStr :=
  ("</text>\n    <text class=\"foot\" x=\"24\" y=\"232\">Source: Open-Meteo</text>\n  </g>\n</svg>\n").toList

/-- The interpolated f-string of `build_svg` (lines 168-190). -/
def svgTemplate (title emoji temp_text text wind extra : PyStr) : PyStr :=
  svgP1 ++ title ++ svgP2 ++ emoji ++ svgP3 ++ temp_text ++ svgP4 ++ text ++
    svgP5 ++ wind ++ svgP6 ++ extra ++ svgP7

/-- Embeds `build_svg` (lines 143-193).  `Except.ok none` means the renderer
was skipped (falsy data, nothing written); `Except.ok (some s)` means the SVG
text `s` was written; `Except.error ()` models the uncaught `IndexError`
raised by the unguarded `[0]` subscripts on a present-but-empty daily
array. -/
def build_svg : Option WeatherData → Except Unit (Option PyStr)
  | none => Except.ok none
  | some d =>
    match getDaily0 (d.daily.getD emptyDaily).temperature_2m_max with
    | Except.error e => Except.error e
    | Except.ok tmax =>
      match getDaily0 (d.daily.getD emptyDaily).temperature_2m_min with
      | Except.error e => Except.error e
      | Except.ok tmin =>
        match getDaily0 (d.daily.getD emptyDaily).precipitation_sum with
        | Except.error e => Except.error e
        | Except.ok precip =>
          Except.ok (some (svgTemplate
            (svgTitle (d.current_weather.getD emptyCW))
            (weather_code_to_icon_and_text (d.current_weather.getD emptyCW).weathercode).1
            (svgTempText (d.current_weather.getD emptyCW))
            (weather_code_to_icon_and_text (d.current_weather.getD emptyCW).weathercode).2
            (svgWindDisp (d.current_weather.getD emptyCW))
            (svgExtra tmax tmin precip)))

/-- A daily field is shape-safe for `build_svg` when it is absent or a
non-empty array (the only shapes on which `daily.get(k, [None])[0]` does not
raise). -/
def dailyFieldOk : Option (List (Option PyStr)) → Bool
  | none => true
  | some l => !l.isEmpty

/-- All three daily fields are shape-safe for `build_svg`. -/
def svgShapeOk (d : WeatherData) : Bool :=
  dailyFieldOk (d.daily.getD emptyDaily).temperature_2m_max &&
  dailyFieldOk (d.daily.getD emptyDaily).temperature_2m_min &&
  dailyFieldOk (d.daily.getD emptyDaily).precipitation_sum

/-- The value `daily.get(k, [None])[0]` takes on a shape-safe field. -/
def svgVal : Option (List (Option PyStr)) → Option PyStr
  | none => none
  | some [] => none
  | some (x :: _) => x

/-- File operations a run can perform on the two artifacts. -/
inductive FileOp where
  | readLog
  | writeLog
  | writeSvg
deriving DecidableEq

/-- Result of one run of `main`: the process exit status, the final log file
state, the SVG text written (if any), and the file operations performed. -/
structure RunResult where
  exitCode : Nat
  log : FileState
  svg : Option PyStr
  ops : List FileOp
deriving DecidableEq

/-- Embeds `main` (lines 196-211).  The fetch result is passed in explicitly
(the network call is the only unmodelled effect).  Exit code 2 for no data or
an unbuildable entry; an uncaught `IndexError` from `build_svg` terminates
the process with status 1; otherwise 0. -/
def main_run (fetch_result : Option WeatherData) (st : FileState) (now_fallback : PyStr) :
    RunResult :=
  match fetch_result with
  | none => ⟨2, st, none, []⟩
  | some d =>
    match build_md_entry (some d) now_fallback with
    | none => ⟨2, st, none, []⟩
    | some (key, entry) =>
      if key.isEmpty then ⟨2, st, none, []⟩
      else
        let readOps : List FileOp := if st.present then [FileOp.readLog] else []
        let step := logWriterStep key entry st
        let writeOps : List FileOp := if step.2 then [FileOp.writeLog] else []
        match build_svg (some d) with
        | Except.error _ => ⟨1, step.1, none, readOps ++ writeOps⟩
        | Except.ok none => ⟨0, step.1, none, readOps ++ writeOps⟩
        | Except.ok (some s) => ⟨0, step.1, some s, readOps ++ writeOps ++ [FileOp.writeSvg]⟩


/-- Unfolding equation for `main_run` on truthy data, phrased with the named
key and entry. -/
theorem main_run_some (d : WeatherData) (st : FileState) (now_fallback : PyStr) :
    main_run (some d) st now_fallback =
      if (mdKey d now_fallback).isEmpty then ⟨2, st, none, []⟩
      else
        match build_svg (some d) with
        | Except.error _ =>
            ⟨1, (logWriterStep (mdKey d now_fallback) (mdEntry d now_fallback) st).1, none,
              (if st.present then [FileOp.readLog] else []) ++
              (if (logWriterStep (mdKey d now_fallback) (mdEntry d now_fallback) st).2 then
                [FileOp.writeLog] else [])⟩
        | Except.ok none =>
            ⟨0, (logWriterStep (mdKey d now_fallback) (mdEntry d now_fallback) st).1, none,
              (if st.present then [FileOp.readLog] else []) ++
              (if (logWriterStep (mdKey d now_fallback) (mdEntry d now_fallback) st).2 then
                [FileOp.writeLog] else [])⟩
        | Except.ok (some s) =>
            ⟨0, (logWriterStep (mdKey d now_fallback) (mdEntry d now_fallback) st).1, some s,
              ((if st.present then [FileOp.readLog] else []) ++
               (if (logWriterStep (mdKey d now_fallback) (mdEntry d now_fallback) st).2 then
                 [FileOp.writeLog] else [])) ++ [FileOp.writeSvg]⟩ := rfl

/-- The dedup key always contains the literal character `T`, hence is
non-empty. -/
theorem mdKey_ne_nil (d : WeatherData) (now_fallback : PyStr) :
    'T' ∈ mdKey d now_fallback ∧ mdKey d now_fallback ≠ [] := by
  constructor
  · exact List.mem_append.mpr (Or.inr (List.mem_cons_self _ _))
  · intro hc
    rcases List.append_eq_nil.mp hc with ⟨_, h2⟩
    exact List.cons_ne_nil _ _ h2

/-- The `isEmpty` test of `main` never fires on a built key. -/
theorem mdKey_isEmpty_false (d : WeatherData) (now_fallback : PyStr) :
    (mdKey d now_fallback).isEmpty = false := by
  rcases h : mdKey d now_fallback with _ | _
  · exact absurd h (mdKey_ne_nil d now_fallback).2
  · rfl

/-- The final state of the log after a run: unchanged, or exactly one
appended entry produced by `build_md_entry`. -/
theorem main_run_log (fetch_result : Option WeatherData) (st : FileState) (now_fallback : PyStr) :
    (main_run fetch_result st now_fallback).log = st ∨
    ∃ k e, build_md_entry fetch_result now_fallback = some (k, e) ∧
      (main_run fetch_result st now_fallback).log = append_md e st := by
  rcases fetch_result with _ | d
  · exact Or.inl rfl
  · rw [main_run_some, if_neg (by simp [mdKey_isEmpty_false])]
    by_cases hae : already_exists (mdKey d now_fallback) st
    · refine Or.inl ?_
      rcases hsvg : build_svg (some d) with e | os
      · simp [logWriterStep, hae]
      · rcases os with _ | s <;> simp [logWriterStep, hae]
    · refine Or.inr ⟨mdKey d now_fallback, mdEntry d now_fallback, rfl, ?_⟩
      rcases hsvg : build_svg (some d) with e | os
      · simp [logWriterStep, hae]
      · rcases os with _ | s <;> simp [logWriterStep, hae]

/-- Claim C1: the classifier is total on optional integer condition codes and
returns exactly the specified pair on every range: `None` gives the unknown
pair, 0 the clear-sky pair, 1-3 partly cloudy, 45-48 fog, 51-67 and 80-82
rain, 71-77 and 85-86 snow, 95-99 thunderstorm, and every other integer
(negative ones included) the cloudy fallback pair. -/
theorem classifier_total_ranges :
    weather_code_to_icon_and_text none = ("❓".toList, "Unknown".toList) ∧
    weather_code_to_icon_and_text (some 0) = ("☀️".toList, "Clear sky".toList) ∧
    (∀ c : Int, 1 ≤ c ∧ c ≤ 3 →
      weather_code_to_icon_and_text (some c) = ("🌤️".toList, "Partly cloudy".toList)) ∧
    (∀ c : Int, 45 ≤ c ∧ c ≤ 48 →
      weather_code_to_icon_and_text (some c) = ("🌫️".toList, "Fog".toList)) ∧
    (∀ c : Int, (51 ≤ c ∧ c ≤ 67) ∨ (80 ≤ c ∧ c ≤ 82) →
      weather_code_to_icon_and_text (some c) = ("🌧️".toList, "Rain".toList)) ∧
    (∀ c : Int, (71 ≤ c ∧ c ≤ 77) ∨ (85 ≤ c ∧ c ≤ 86) →
      weather_code_to_icon_and_text (some c) = ("❄️".toList, "Snow".toList)) ∧
    (∀ c : Int, 95 ≤ c ∧ c ≤ 99 →
      weather_code_to_icon_and_text (some c) = ("⛈️".toList, "Thunderstorm".toList)) ∧
    (∀ c : Int, ¬(c = 0) ∧ ¬(1 ≤ c ∧ c ≤ 3) ∧ ¬(45 ≤ c ∧ c ≤ 48) ∧
      ¬((51 ≤ c ∧ c ≤ 67) ∨ (80 ≤ c ∧ c ≤ 82)) ∧ ¬((71 ≤ c ∧ c ≤ 77) ∨ (85 ≤ c ∧ c ≤ 86)) ∧
      ¬(95 ≤ c ∧ c ≤ 99) →
      weather_code_to_icon_and_text (some c) = ("🌥️".toList, "Cloudy".toList)) := by
  refine ⟨rfl, by decide, ?_, ?_, ?_, ?_, ?_, ?_⟩ <;>
    (intro c h
     simp only [weather_code_to_icon_and_text]
     split_ifs <;> first | rfl | omega)

/-- Witness for C1: each range conjunct applied at a concrete code. -/
theorem classifier_total_ranges_witness :
    weather_code_to_icon_and_text (some 2) = ("🌤️".toList, "Partly cloudy".toList) ∧
    weather_code_to_icon_and_text (some 46) = ("🌫️".toList, "Fog".toList) ∧
    weather_code_to_icon_and_text (some 81) = ("🌧️".toList, "Rain".toList) ∧
    weather_code_to_icon_and_text (some 73) = ("❄️".toList, "Snow".toList) ∧
    weather_code_to_icon_and_text (some 97) = ("⛈️".toList, "Thunderstorm".toList) ∧
    weather_code_to_icon_and_text (some (-7)) = ("🌥️".toList, "Cloudy".toList) :=
  ⟨classifier_total_ranges.2.2.1 2 (by decide),
   classifier_total_ranges.2.2.2.1 46 (by decide),
   classifier_total_ranges.2.2.2.2.1 81 (by decide),
   classifier_total_ranges.2.2.2.2.2.1 73 (by decide),
   classifier_total_ranges.2.2.2.2.2.2.1 97 (by decide),
   classifier_total_ranges.2.2.2.2.2.2.2 (-7) (by decide)⟩

/-- Claim C2: idempotent append.  If the log exists, its read succeeds, and
its contents contain the dedup key as a substring, then the Log Writer step
leaves the file state unchanged byte-for-byte and performs no write. -/
theorem idempotent_append (key entry : PyStr) (st : FileState)
    (hp : st.present = true) (hr : st.readFails = false) (hk : key <:+: st.contents) :
    logWriterStep key entry st = (st, false) := by
  simp [logWriterStep, already_exists, hp, hr, hk]

/-- Witness state for C2: an existing, readable log containing the key. -/
def c2state : FileState :=
  ⟨true, "intro 2024-01-01T12:00 entry tail".toList, false⟩

/-- Witness for C2: the idempotent-append theorem at a concrete state. -/
theorem idempotent_append_witness :
    logWriterStep "2024-01-01T12:00".toList "block".toList c2state = (c2state, false) :=
  idempotent_append "2024-01-01T12:00".toList "block".toList c2state rfl rfl (by decide)

/-- Claim C3: fetch-failure atomicity.  When the fetch yields the no-data
signal, `main` exits with code 2, the log state is untouched, no SVG is
written, and no file operation at all is performed. -/
theorem fetch_failure_atomic (st : FileState) (now_fallback : PyStr) :
    main_run none st now_fallback = ⟨2, st, none, []⟩ := rfl

/-- Claim C8: dedup-check failure fallback.  A missing log or a failing read
makes `already_exists` answer "key not found", and in the failing-read case
the Log Writer step proceeds to append. -/
theorem dedup_check_fallback (key entry : PyStr) (st : FileState) :
    (st.present = false → already_exists key st = false) ∧
    (st.readFails = true → already_exists key st = false) ∧
    (st.present = true → st.readFails = true →
      logWriterStep key entry st = (append_md entry st, true)) := by
  refine ⟨fun h => ?_, fun h => ?_, fun hp hr => ?_⟩
  · simp [already_exists, h]
  · rcases hp : st.present with _ | _ <;> simp [already_exists, h, hp]
  · simp [logWriterStep, already_exists, hp, hr]

/-- Witness for C8: missing file, failing read, and the forced append, all at
concrete states. -/
theorem dedup_check_fallback_witness :
    already_exists "k".toList ⟨false, [], false⟩ = false ∧
    already_exists "k".toList ⟨true, "k".toList, true⟩ = false ∧
    logWriterStep "k".toList "B".toList ⟨true, "k".toList, true⟩ =
      (append_md "B".toList ⟨true, "k".toList, true⟩, true) :=
  ⟨(dedup_check_fallback "k".toList [] ⟨false, [], false⟩).1 rfl,
   (dedup_check_fallback "k".toList [] ⟨true, "k".toList, true⟩).2.1 rfl,
   (dedup_check_fallback "k".toList "B".toList ⟨true, "k".toList, true⟩).2.2 rfl rfl⟩

/-- Claim C9: append-only log invariant.  After any run, the observable log
contents either equal the prior contents or equal the prior contents followed
by exactly one new block built by `build_md_entry`; the prior contents are
always a prefix of the new contents. -/
theorem append_only_log (fetch_result : Option WeatherData) (st : FileState)
    (now_fallback : PyStr) :
    st.eff <+: (main_run fetch_result st now_fallback).log.eff ∧
    ((main_run fetch_result st now_fallback).log.eff = st.eff ∨
      ∃ k e, build_md_entry fetch_result now_fallback = some (k, e) ∧
        (main_run fetch_result st now_fallback).log.eff = st.eff ++ e) := by
  rcases main_run_log fetch_result st now_fallback with h | ⟨k, e, hb, h⟩
  · rw [h]
    exact ⟨List.prefix_refl _, Or.inl rfl⟩
  · rw [h]
    have happ : (append_md e st).eff = st.eff ++ e := by
      simp [append_md, FileState.eff]
    rw [happ]
    exact ⟨List.prefix_append _ _, Or.inr ⟨k, e, hb, rfl⟩⟩

/-- Claim C10: on any truthy data, `build_md_entry` yields a dedup key that
contains the character `T` and is non-empty, so the orchestrator's
"Could not build entry" exit-2 branch is unreachable: `main` never returns 2
once the fetch succeeded. -/
theorem entry_key_nonempty (d : WeatherData) (st : FileState) (now_fallback : PyStr) :
    (∃ k e, build_md_entry (some d) now_fallback = some (k, e) ∧ 'T' ∈ k ∧ k ≠ []) ∧
    (main_run (some d) st now_fallback).exitCode ≠ 2 := by
  constructor
  · exact ⟨mdKey d now_fallback, mdEntry d now_fallback, rfl,
      (mdKey_ne_nil d now_fallback).1, (mdKey_ne_nil d now_fallback).2⟩
  · rw [main_run_some, if_neg (by simp [mdKey_isEmpty_false])]
    rcases hsvg : build_svg (some d) with e | os
    · simp
    · rcases os with _ | s <;> simp

/-- The concrete response of the spec's end-to-end property: clear sky at
2024-01-01T12:00, 24.5 °C, wind 10.0 km/h, daily 27.0/20.0 °C and 0.0 mm. -/
def c7data : WeatherData :=
  { current_weather := some
      { time := some "2024-01-01T12:00".toList, temperature := some "24.5".toList,
        windspeed := some "10.0".toList, weathercode := some 0 },
    daily := some
      { temperature_2m_max := some [some "27.0".toList],
        temperature_2m_min := some [some "20.0".toList],
        precipitation_sum := some [some "0.0".toList] } }

/-- Claim C7: end-to-end success on the concrete response against an empty
log: `build_md_entry` produces exactly the specified key and block (header,
icon line, Now/Max-Min/Precipitation/Wind lines, attribution, delimiter), the
run appends that block to the empty document, and `main` exits with 0. -/
theorem end_to_end_success :
    build_md_entry (some c7data) [] =
      some ("2024-01-01T12:00".toList,
        ("**2024-01-01 12:00 — Alamar, Havana (Cuba)**\n\n☀️ Clear sky\n\nNow: 24.5 °C (measured at 12:00)\n\nMax/Min today: 27.0 °C / 20.0 °C\n\nPrecipitation (today): 0.0 mm\n\nWind speed: 10.0 km/h\n\n_Source: Open-Meteo API_\n\n---\n\n").toList) ∧
    (main_run (some c7data) ⟨true, [], false⟩ []).exitCode = 0 ∧
    (main_run (some c7data) ⟨true, [], false⟩ []).log.contents =
      ("**2024-01-01 12:00 — Alamar, Havana (Cuba)**\n\n☀️ Clear sky\n\nNow: 24.5 °C (measured at 12:00)\n\nMax/Min today: 27.0 °C / 20.0 °C\n\nPrecipitation (today): 0.0 mm\n\nWind speed: 10.0 km/h\n\n_Source: Open-Meteo API_\n\n---\n\n").toList ∧
    (main_run (some c7data) ⟨true, [], false⟩ []).ops =
      [FileOp.readLog, FileOp.writeLog, FileOp.writeSvg] := by
  refine ⟨by decide, by decide, by decide, by decide⟩

/-- A present daily field maps to its first element under the shape guard. -/
theorem getDaily0_ok (f : Option (List (Option PyStr))) (h : dailyFieldOk f = true) :
    getDaily0 f = Except.ok (svgVal f) := by
  rcases f with _ | l
  · rfl
  · rcases l with _ | ⟨x, xs⟩
    · simp [dailyFieldOk] at h
    · rfl

/-- On shape-safe data, `build_svg` succeeds and writes the interpolated
template. -/
theorem build_svg_ok_of_shape (d : WeatherData) (h : svgShapeOk d = true) :
    build_svg (some d) = Except.ok (some (svgTemplate
      (svgTitle (d.current_weather.getD emptyCW))
      (weather_code_to_icon_and_text (d.current_weather.getD emptyCW).weathercode).1
      (svgTempText (d.current_weather.getD emptyCW))
      (weather_code_to_icon_and_text (d.current_weather.getD emptyCW).weathercode).2
      (svgWindDisp (d.current_weather.getD emptyCW))
      (svgExtra (svgVal (d.daily.getD emptyDaily).temperature_2m_max)
                (svgVal (d.daily.getD emptyDaily).temperature_2m_min)
                (svgVal (d.daily.getD emptyDaily).precipitation_sum)))) := by
  have h' := h
  simp only [svgShapeOk, Bool.and_eq_true] at h'
  obtain ⟨⟨h1, h2⟩, h3⟩ := h'
  simp only [build_svg, getDaily0_ok _ h1, getDaily0_ok _ h2, getDaily0_ok _ h3]

/-- Counterexample to C4: a truthy response whose `daily.temperature_2m_max`
is bound to an empty array. -/
def svg_cex_data : WeatherData :=
  { current_weather := none,
    daily := some { temperature_2m_max := some [], temperature_2m_min := none,
                    precipitation_sum := none } }

/-- Counterexample theorem for C4: `build_svg` faults (uncaught `IndexError`)
on a non-empty parsed response whose daily field is an empty array, so it is
not fault-free on every shape and not as absence-tolerant as
`build_md_entry` (which catches the same error and still builds an entry). -/
theorem build_svg_faults_on_empty_daily_array :
    build_svg (some svg_cex_data) = Except.error () ∧
    build_md_entry (some svg_cex_data) [] = some (mdKey svg_cex_data [], mdEntry svg_cex_data []) :=
  ⟨rfl, rfl⟩

/-- Amended C4: when data is absent the renderer is skipped without writing,
and on truthy data `build_svg` does not fault provided every daily field is
absent or a non-empty array; a daily field bound to an empty array is the one
extra failure path (its extraction is not exception-guarded). -/
theorem build_svg_no_fault_amended (d : WeatherData) (h : svgShapeOk d = true) :
    (∃ s, build_svg (some d) = Except.ok (some s)) ∧
    build_svg none = Except.ok none :=
  ⟨⟨_, build_svg_ok_of_shape d h⟩, rfl⟩

/-- Witness for the amended C4 at the concrete end-to-end response. -/
theorem build_svg_no_fault_amended_witness :
    (∃ s, build_svg (some c7data) = Except.ok (some s)) ∧
    build_svg none = Except.ok none :=
  build_svg_no_fault_amended c7data (by decide)

/-- The head of a list concatenation is the head of its non-empty left
part. -/
theorem head?_append_left {A : PyStr} (B : PyStr) {c : Char} (h : A.head? = some c) :
    (A ++ B).head? = some c := by
  rcases A with _ | ⟨a, s⟩
  · simp at h
  · simpa using h

/-- A string whose first character is not `M` cannot start with the Max/Min
line prefix. -/
theorem not_maxmin_head (l : PyStr) (c : Char) (hs : l.head? = some c)
    (hc : c ≠ 'M') : ¬ ("Max/Min today: ".toList <+: l) := by
  intro hp
  rcases l with _ | ⟨a, l'⟩
  · simp at hs
  · simp only [List.head?_cons, Option.some.injEq] at hs
    rcases hp with ⟨t, ht⟩
    rw [show ("Max/Min today: ".toList : PyStr) = 'M' :: "ax/Min today: ".toList from by decide]
      at ht
    simp only [List.cons_append] at ht
    injection ht with h1 _
    rw [← hs, ← h1] at hc
    exact hc rfl

/-- The classifier's icon is always one of eight fixed glyph strings. -/
theorem classifier_icon_mem (oc : Option Int) :
    (weather_code_to_icon_and_text oc).1 ∈
      ["❓".toList, "☀️".toList, "🌤️".toList, "🌫️".toList, "🌧️".toList,
       "❄️".toList, "⛈️".toList, "🌥️".toList] := by
  rcases oc with _ | c
  · decide
  · simp only [weather_code_to_icon_and_text]
    split_ifs <;> decide

/-- The classifier's icon starts with a glyph, never with `M`. -/
theorem classifier_icon_head_ne (oc : Option Int) :
    ∃ c, (weather_code_to_icon_and_text oc).1.head? = some c ∧ c ≠ 'M' := by
  have hm := classifier_icon_mem oc
  simp only [List.mem_cons, List.not_mem_nil, or_false] at hm
  rcases hm with hm | hm | hm | hm | hm | hm | hm | hm <;> rw [hm] <;>
    exact ⟨_, rfl, by decide⟩

/-- Claim C6: both-or-neither suppression of the Max/Min line.  Whenever the
extracted daily maximum or the extracted daily minimum is absent (so in
particular when both are absent, or exactly one is), no line of the built
text block starts with `Max/Min today: `. -/
theorem maxmin_line_suppressed (d : WeatherData) (now_fallback : PyStr)
    (h : (dailyTriple (d.daily.getD emptyDaily)).1 = none ∨
         (dailyTriple (d.daily.getD emptyDaily)).2.1 = none) :
    ∀ l ∈ build_md_lines d now_fallback, ¬ ("Max/Min today: ".toList <+: l) := by
  intro l hl
  simp only [build_md_lines, List.mem_append, List.mem_cons, List.not_mem_nil, or_false,
    false_or] at hl
  rcases hl with (((((rfl | rfl) | hl) | hl) | hl) | hl) | rfl
  · refine not_maxmin_head _ '*' ?_ (by decide)
    repeat apply head?_append_left
    decide
  · obtain ⟨c, hc1, hc2⟩ := classifier_icon_head_ne (d.current_weather.getD emptyCW).weathercode
    exact not_maxmin_head _ c (head?_append_left _ (head?_append_left _ hc1)) hc2
  · rcases hT : (d.current_weather.getD emptyCW).temperature with _ | t <;>
      rw [hT] at hl
    · simp at hl
    · simp only [List.mem_singleton] at hl
      subst hl
      refine not_maxmin_head _ 'N' ?_ (by decide)
      repeat apply head?_append_left
      decide
  · exfalso
    rcases h with h1 | h2
    · rw [h1] at hl
      simp at hl
    · rcases ht1 : (dailyTriple (d.daily.getD emptyDaily)).1 with _ | a <;>
        rw [ht1] at hl
      · simp at hl
      · rw [h2] at hl
        simp at hl
  · rcases hP : (dailyTriple (d.daily.getD emptyDaily)).2.2 with _ | p <;>
      rw [hP] at hl
    · simp at hl
    · simp only [List.mem_singleton] at hl
      subst hl
      refine not_maxmin_head _ 'P' ?_ (by decide)
      repeat apply head?_append_left
      decide
  · rcases hW : (d.current_weather.getD emptyCW).windspeed with _ | w <;>
      rw [hW] at hl
    · simp at hl
    · simp only [List.mem_singleton] at hl
      subst hl
      refine not_maxmin_head _ 'W' ?_ (by decide)
      repeat apply head?_append_left
      decide
  · decide

/-- Witness data for C6: daily minimum present only as null, so exactly one
of max/min is extracted. -/
def c6data : WeatherData :=
  { current_weather := some
      { time := some "2024-01-01T12:00".toList, temperature := some "24.5".toList,
        windspeed := some "10.0".toList, weathercode := some 0 },
    daily := some
      { temperature_2m_max := some [some "27.0".toList],
        temperature_2m_min := some [none], precipitation_sum := none } }

/-- Witness for C6: the suppression theorem applied to the header line of the
concrete one-sided reading. -/
theorem maxmin_line_suppressed_witness :
    ¬ ("Max/Min today: ".toList <+:
        "**2024-01-01 12:00 — Alamar, Havana (Cuba)**".toList) :=
  maxmin_line_suppressed c6data [] (Or.inr (by decide)) _ (by decide)

/-- A list is an infix of itself preceded by anything. -/
theorem infix_self_append_left (A m : PyStr) : m <:+: A ++ m :=
  ⟨A, [], by simp⟩

/-- Extending an infix on the right. -/
theorem infix_extend_right {m l : PyStr} (r : PyStr) (h : m <:+: l) : m <:+: l ++ r := by
  rcases h with ⟨s, t, ht⟩
  exact ⟨s, t ++ r, by rw [← ht]; simp [List.append_assoc]⟩

/-- A prefix is an infix. -/
theorem infix_of_pre {m l : PyStr} (h : m <+: l) : m <:+: l := by
  rcases h with ⟨t, ht⟩
  exact ⟨[], t, by simpa using ht⟩

/-- The temperature readout text occurs in the rendered template. -/
theorem tempText_infix_template (title e tt tx w ex : PyStr) :
    tt <:+: svgTemplate title e tt tx w ex := by
  unfold svgTemplate
  exact infix_extend_right _ (infix_extend_right _ (infix_extend_right _ (infix_extend_right _
    (infix_extend_right _ (infix_extend_right _ (infix_extend_right _
      (infix_self_append_left _ _)))))))

/-- The extra (max/min/precip) line occurs in the rendered template. -/
theorem extra_infix_template (title e tt tx w ex : PyStr) :
    ex <:+: svgTemplate title e tt tx w ex := by
  unfold svgTemplate
  exact infix_extend_right _ (infix_self_append_left _ _)

/-- With a missing wind speed the rendered template shows the fixed
`-- km/h` wind text. -/
theorem wind_chunk_infix_template (title e tt tx ex : PyStr) :
    " — Wind: -- km/h".toList <:+: svgTemplate title e tt tx "--".toList ex := by
  unfold svgTemplate
  apply infix_extend_right
  apply infix_extend_right
  refine ⟨svgP1 ++ title ++ svgP2 ++ e ++ svgP3 ++ tt ++ svgP4 ++ tx,
          "</text>\n    <text class=\"meta\" x=\"24\" y=\"185\">".toList, ?_⟩
  rw [show (" — Wind: -- km/h".toList : PyStr) =
        (svgP5 ++ "--".toList) ++ " km/h".toList from by decide,
      show (svgP6 : PyStr) =
        " km/h".toList ++ "</text>\n    <text class=\"meta\" x=\"24\" y=\"185\">".toList
        from by decide]
  simp [List.append_assoc]

/-- With a missing daily maximum the extra line starts with the fixed
`Max None` text. -/
theorem tmax_none_chunk (t2 t3 : Option PyStr) :
    "Max None °C / Min ".toList <+: svgExtra none t2 t3 := by
  refine ⟨pyStrOpt t2 ++ " °C  •  Precip ".toList ++ pyStrOpt t3 ++ " mm".toList, ?_⟩
  rw [show ("Max None °C / Min ".toList : PyStr) =
        ("Max ".toList ++ "None".toList) ++ " °C / Min ".toList from by decide]
  simp [svgExtra, pyStrOpt, List.append_assoc]

/-- With a missing daily minimum the extra line shows the fixed `Min None`
text. -/
theorem tmin_none_chunk (t1 t3 : Option PyStr) :
    " °C / Min None °C  •  Precip ".toList <:+: svgExtra t1 none t3 := by
  refine ⟨"Max ".toList ++ pyStrOpt t1, pyStrOpt t3 ++ " mm".toList, ?_⟩
  rw [show (" °C / Min None °C  •  Precip ".toList : PyStr) =
        (" °C / Min ".toList ++ "None".toList) ++ " °C  •  Precip ".toList from by decide]
  simp [svgExtra, pyStrOpt, List.append_assoc]

/-- With a missing precipitation sum the extra line ends with the fixed
`Precip None mm` text. -/
theorem precip_none_chunk (t1 t2 : Option PyStr) :
    " °C  •  Precip None mm".toList <:+: svgExtra t1 t2 none := by
  refine ⟨"Max ".toList ++ pyStrOpt t1 ++ " °C / Min ".toList ++ pyStrOpt t2, [], ?_⟩
  rw [show (" °C  •  Precip None mm".toList : PyStr) =
        (" °C  •  Precip ".toList ++ "None".toList) ++ " mm".toList from by decide]
  simp [svgExtra, pyStrOpt, List.append_assoc]

/-- Claim C5: for every shape-safe parsed response, each missing displayed
field makes `build_svg` render a fixed placeholder text at that field's
position: `-- °C` for the temperature readout, ` — Wind: -- km/h` for the
wind, and the fixed `None` renderings in the Max/Min/Precip line. -/
theorem svg_missing_field_placeholders (d : WeatherData) (h : svgShapeOk d = true) :
    ((d.current_weather.getD emptyCW).temperature = none →
      ∃ s, build_svg (some d) = Except.ok (some s) ∧ "-- °C".toList <:+: s) ∧
    ((d.current_weather.getD emptyCW).windspeed = none →
      ∃ s, build_svg (some d) = Except.ok (some s) ∧ " — Wind: -- km/h".toList <:+: s) ∧
    (svgVal (d.daily.getD emptyDaily).temperature_2m_max = none →
      ∃ s, build_svg (some d) = Except.ok (some s) ∧ "Max None °C / Min ".toList <:+: s) ∧
    (svgVal (d.daily.getD emptyDaily).temperature_2m_min = none →
      ∃ s, build_svg (some d) = Except.ok (some s) ∧
        " °C / Min None °C  •  Precip ".toList <:+: s) ∧
    (svgVal (d.daily.getD emptyDaily).precipitation_sum = none →
      ∃ s, build_svg (some d) = Except.ok (some s) ∧
        " °C  •  Precip None mm".toList <:+: s) := by
  refine ⟨fun h1 => ⟨_, build_svg_ok_of_shape d h, ?_⟩,
          fun h2 => ⟨_, build_svg_ok_of_shape d h, ?_⟩,
          fun h3 => ⟨_, build_svg_ok_of_shape d h, ?_⟩,
          fun h4 => ⟨_, build_svg_ok_of_shape d h, ?_⟩,
          fun h5 => ⟨_, build_svg_ok_of_shape d h, ?_⟩⟩
  · have ht : svgTempText (d.current_weather.getD emptyCW) = "-- °C".toList := by
      simp only [svgTempText, h1]
      decide
    rw [ht]
    exact tempText_infix_template _ _ _ _ _ _
  · have hw : svgWindDisp (d.current_weather.getD emptyCW) = "--".toList := by
      simp only [svgWindDisp, h2]
    rw [hw]
    exact wind_chunk_infix_template _ _ _ _ _
  · rw [h3]
    exact (infix_of_pre (tmax_none_chunk _ _)).trans (extra_infix_template _ _ _ _ _ _)
  · rw [h4]
    exact (tmin_none_chunk _ _).trans (extra_infix_template _ _ _ _ _ _)
  · rw [h5]
    exact (precip_none_chunk _ _).trans (extra_infix_template _ _ _ _ _ _)

/-- Witness data for C5: a truthy response with every displayed field
missing. -/
def svg_missing_data : WeatherData := ⟨none, none⟩

/-- Witness for C5: all five placeholder conjuncts at the all-missing
response. -/
theorem svg_missing_field_placeholders_witness :
    (∃ s, build_svg (some svg_missing_data) = Except.ok (some s) ∧
      "-- °C".toList <:+: s) ∧
    (∃ s, build_svg (some svg_missing_data) = Except.ok (some s) ∧
      " — Wind: -- km/h".toList <:+: s) ∧
    (∃ s, build_svg (some svg_missing_data) = Except.ok (some s) ∧
      "Max None °C / Min ".toList <:+: s) ∧
    (∃ s, build_svg (some svg_missing_data) = Except.ok (some s) ∧
      " °C / Min None °C  •  Precip ".toList <:+: s) ∧
    (∃ s, build_svg (some svg_missing_data) = Except.ok (some s) ∧
      " °C  •  Precip None mm".toList <:+: s) :=
  ⟨(svg_missing_field_placeholders svg_missing_data (by decide)).1 (by decide),
   (svg_missing_field_placeholders svg_missing_data (by decide)).2.1 (by decide),
   (svg_missing_field_placeholders svg_missing_data (by decide)).2.2.1 (by decide),
   (svg_missing_field_placeholders svg_missing_data (by decide)).2.2.2.1 (by decide),
   (svg_missing_field_placeholders svg_missing_data (by decide)).2.2.2.2 (by decide)⟩
